import Mathlib

/-!
Shallow embedding of the ChatGPT chat-completion client (`ChatGPTAPI` class):
the context builder `_buildMessages`, the dual-mode (streaming / buffered)
response handling of `sendMessage`, and the persistence orchestration.

External collaborators are parameters of the definitions:
* the token encoder (`tokenizer.encode(...).length`) is a parameter
  `encodeLen : String → Nat`;
* the message store read (`getMessageById`) is a parameter
  `getMsg : String → Option ChatMessage`;
* the message store write (`upsertMessage`) updates an association list.

JavaScript string truthiness (`if (s)`) is modelled as `s ≠ ""`; optional
values use `Option`; JS number arithmetic on token budgets is modelled on
`Int` (subtraction may go negative).  The unbounded `do … while (true)`
walk of the ancestor chain (which the source does not guard against
cycles) is modelled with explicit fuel, returning `none` when the fuel
runs out.
-/

namespace ChatGPTWeb

/-- Token usage record attached to a response (`detail.usage`). -/
structure Usage where
  prompt_tokens : Nat
  completion_tokens : Nat
  total_tokens : Nat
  estimated : Bool
deriving Repr, DecidableEq

/-- Raw provider response metadata kept on a message (`detail`).  Only the
fields the client reads back (`usage`, the response `id`) are modelled. -/
structure Detail where
  id : String := ""
  usage : Option Usage := none
deriving Repr, DecidableEq

/-- A single conversation turn (`types.ChatMessage`). -/
structure ChatMessage where
  id : String
  role : String
  conversationId : Option String := none
  parentMessageId : Option String := none
  text : String
  delta : Option String := none
  detail : Option Detail := none
  name : Option String := none
deriving Repr, DecidableEq

/-- Content of a request entry: a plain string, or the structured
two-part (text + image_url) array built for the inline-image case. -/
inductive Content where
  | text (s : String)
  | parts (before : String) (imgUrl : String)
deriving Repr, DecidableEq

/-- A role-tagged entry of the assembled prompt
(`openai.ChatCompletionRequestMessage`). -/
structure RequestMessage where
  role : String
  content : Content
  name : Option String := none
deriving Repr, DecidableEq

/-- Per-call completion parameter overrides (`opts.completionParams`).
Only its presence and `model` field matter to the modelled code paths. -/
structure CompletionParams where
  model : Option String := none
deriving Repr, DecidableEq

/-- The options object accepted by `sendMessage`. -/
structure SendOpts where
  parentMessageId : Option String := none
  messageId : Option String := none
  timeoutMs : Option Nat := none
  onProgress : Bool := false
  stream : Option Bool := none
  completionParams : Option CompletionParams := none
  conversationId : Option String := none
  abortSignal : Bool := false
  systemMessage : Option String := none
  name : Option String := none
deriving Repr, DecidableEq

/-- Client instance configuration relevant to the builder: the token
limits from the constructor, the resolved instance `systemMessage`, and
the configured site domain (`config.siteConfig.siteDomain`). -/
structure BuildConfig where
  maxModelTokens : Nat
  maxResponseTokens : Nat
  systemMessage : String
  siteDomain : String
deriving Repr, DecidableEq

deriving instance DecidableEq for Except

/-! ### String helpers (executable models of the JS string operations) -/

/-- Recursion core of `removeSub`; the fuel is an upper bound on the
number of scanned positions (each step consumes at least one char). -/
def removeSubGo (pat : List Char) : Nat → List Char → List Char
  | _, [] => []
  | 0, l => l
  | fuel + 1, c :: rest =>
    if pat ≠ [] ∧ pat.isPrefixOf (c :: rest) then
      removeSubGo pat fuel ((c :: rest).drop pat.length)
    else
      c :: removeSubGo pat fuel rest

/-- Removes every (left-to-right, non-overlapping) occurrence of `pat`,
modelling `text.replace(/pat/g, "")`. -/
def removeSub (pat l : List Char) : List Char :=
  removeSubGo pat l.length l

/-- Substring test, modelling `text.includes(pat)`. -/
def containsSub (pat : List Char) : List Char → Bool
  | [] => pat.isEmpty
  | c :: rest => pat.isPrefixOf (c :: rest) || containsSub pat rest

/-- The part of a string before the first occurrence of `pat`,
modelling `text.split(pat)[0]`. -/
def takeBeforeSub (pat : List Char) : List Char → List Char
  | [] => []
  | c :: rest =>
    if pat ≠ [] ∧ pat.isPrefixOf (c :: rest) then []
    else c :: takeBeforeSub pat rest

/-- Trims leading and trailing whitespace, modelling
`String.prototype.trim`. -/
def jsTrim (s : String) : String :=
  String.mk (((s.data.dropWhile Char.isWhitespace).reverse.dropWhile
    Char.isWhitespace).reverse)

/-- JS `Array.prototype.join(sep)`. -/
def joinSep (sep : String) : List String → String
  | [] => ""
  | [a] => a
  | a :: rest => a ++ sep ++ joinSep sep rest

/-! ### Token counting (`_getTokenCount`) -/

/-- Models `_getTokenCount`: the `<|endoftext|>` sequences are removed
and the external tokenizer (parameter `encodeLen`) counts the rest. -/
def getTokenCount (encodeLen : String → Nat) (text : String) : Nat :=
  encodeLen (String.mk (removeSub "<|endoftext|>".data text.data))

/-! ### Prompt serialization (the `reduce` + `join` in `_buildMessages`) -/

/-- JS stringification of an entry's content inside a template literal:
a string interpolates as itself; the two-element object array of the
image case interpolates via `Array.prototype.toString` as
`[object Object],[object Object]`. -/
def contentToString : Content → String
  | .text s => s
  | .parts _ _ => "[object Object],[object Object]"

/-- One line of the flattened prompt, with the fixed role labels. -/
def roleLine (m : RequestMessage) : String :=
  if m.role = "system" then "Instructions:\n" ++ contentToString m.content
  else if m.role = "user" then "User:\n" ++ contentToString m.content
  else "ChatGPT:\n" ++ contentToString m.content

/-- The flattened prompt string of an entry sequence
(`nextMessages.reduce(...).join("\n\n")`). -/
def serializePrompt (ms : List RequestMessage) : String :=
  joinSep "\n\n" (ms.map roleLine)

/-! ### Context builder (`_buildMessages`) -/

/-- The inline image marker the builder looks for in the input text. -/
def imageMarker : String := "![从感叹号开始为识图标志请勿修改]"

/-- `text.includes(imageMarker)`. -/
def includesMarker (text : String) : Bool :=
  containsSub imageMarker.data text.data

/-- Characters before the first unmatched close parenthesis, `none` if no
close parenthesis follows. -/
def splitAtClose : List Char → Option (List Char)
  | [] => none
  | c :: rest =>
    if c = ')' then some []
    else (splitAtClose rest).map (fun l => c :: l)

/-- The first capture of the regex `/\((.*?)\)/` on a string: the content
between the first open parenthesis that is followed by a close
parenthesis and the nearest close parenthesis after it;  `none` when the
regex does not match (the source dereferences the match without a null
check, which is modelled as the `noParenMatch` exception). -/
def firstParenInner : List Char → Option String
  | [] => none
  | c :: rest =>
    if c = '(' then (splitAtClose rest).map String.mk
    else firstParenInner rest

/-- Exceptions `_buildMessages` can throw while preparing the user entry
of an image-marked input. -/
inductive BuildError where
  | missingCompletionParams
  | noParenMatch
deriving Repr, DecidableEq

/-- The optional system entry: pushed only when the resolved system
message is truthy. -/
def systemPart (systemMessage : String) : List RequestMessage :=
  if systemMessage ≠ "" then [{ role := "system", content := .text systemMessage }]
  else []

/-- The plain-text user entry appended for a non-image input. -/
def userEntry (text : String) (opts : SendOpts) : RequestMessage :=
  { role := "user", content := .text text, name := opts.name }

/-- The front half of `_buildMessages`: resolves the system entry,
detects the inline image marker, and produces the initial entry
sequence together with `imgPath`.  In the marker branch the source
first writes `opts.completionParams.model` (throwing when
`completionParams` is absent) and then dereferences
`text.match(/\((.*?)\)/)[1]` (throwing when the regex has no match). -/
def buildFront (cfg : BuildConfig) (text : String) (opts : SendOpts) :
    Except BuildError (List RequestMessage × String) :=
  let systemMessage := opts.systemMessage.getD cfg.systemMessage
  let messages := systemPart systemMessage
  if includesMarker text then
    match opts.completionParams with
    | none => .error .missingCompletionParams
    | some _ =>
      match firstParenInner text.data with
      | none => .error .noParenMatch
      | some afterPart =>
        let imgPath := imageMarker ++ "(" ++ afterPart ++ ")"
        let imgUrlStr :=
          if ¬ ("http".data.isPrefixOf afterPart.data) then cfg.siteDomain ++ afterPart
          else afterPart
        let beforePart := String.mk (takeBeforeSub imageMarker.data text.data)
        let nextMessages :=
          if text ≠ "" then
            messages ++ [{ role := "user", content := .parts beforePart imgUrlStr,
                           name := opts.name }]
          else messages
        .ok (nextMessages, imgPath)
  else
    let nextMessages :=
      if text ≠ "" then messages ++ [userEntry text opts]
      else messages
    .ok (nextMessages, "")

/-- The prompt entry spliced in for a fetched parent message
(`role: parentMessage.role || "user"`, `content: parentMessage.text`). -/
def entryOfParent (p : ChatMessage) : RequestMessage :=
  { role := if p.role ≠ "" then p.role else "user",
    content := .text p.text, name := p.name }

/-- The `do … while (true)` chain walk of `_buildMessages`, with explicit
fuel (`none` = the source would still be looping).  State: the last
accepted sequence `messages` with its token count `numTokens`, the
candidate `nextMessages`, and the pending `parentMessageId`. -/
def buildLoop (encodeLen : String → Nat) (getMsg : String → Option ChatMessage)
    (maxNumTokens : Int) (systemMessageOffset : Nat) :
    Nat → List RequestMessage → List RequestMessage → Nat → Option String →
    Option (List RequestMessage × Nat)
  | 0, _, _, _, _ => none
  | fuel + 1, messages, nextMessages, numTokens, parentMessageId =>
    let prompt := serializePrompt nextMessages
    let nextNumTokensEstimate := getTokenCount encodeLen prompt
    if prompt ≠ "" ∧ ¬ ((nextNumTokensEstimate : Int) ≤ maxNumTokens) then
      some (messages, numTokens)
    else if ¬ ((nextNumTokensEstimate : Int) ≤ maxNumTokens) then
      some (nextMessages, nextNumTokensEstimate)
    else if parentMessageId.getD "" = "" then
      some (nextMessages, nextNumTokensEstimate)
    else
      match getMsg (parentMessageId.getD "") with
      | none => some (nextMessages, nextNumTokensEstimate)
      | some parentMessage =>
        buildLoop encodeLen getMsg maxNumTokens systemMessageOffset fuel
          nextMessages
          (nextMessages.take systemMessageOffset ++
            entryOfParent parentMessage :: nextMessages.drop systemMessageOffset)
          nextNumTokensEstimate
          parentMessage.parentMessageId

/-- The response budget computed at the end of `_buildMessages`:
`Math.max(1, Math.min(maxModelTokens - numTokens, maxResponseTokens))`. -/
def responseBudget (maxModelTokens maxResponseTokens : Nat) (numTokens : Nat) : Int :=
  max 1 (min ((maxModelTokens : Int) - (numTokens : Int)) (maxResponseTokens : Int))

/-- The record returned by `_buildMessages`. -/
structure BuildOutcome where
  messages : List RequestMessage
  maxTokens : Int
  numTokens : Nat
  imgPath : String
deriving Repr, DecidableEq

/-- The whole of `_buildMessages`: front part, chain walk, budget.
`Except.error` models a thrown exception; `Except.ok none` means the
fuel ran out (the source would still be in the walk). -/
def buildMessages (encodeLen : String → Nat) (getMsg : String → Option ChatMessage)
    (cfg : BuildConfig) (fuel : Nat) (text : String) (opts : SendOpts) :
    Except BuildError (Option BuildOutcome) := do
  let systemMessage := opts.systemMessage.getD cfg.systemMessage
  let messages := systemPart systemMessage
  let systemMessageOffset := messages.length
  let (nextMessages, imgPath) ← buildFront cfg text opts
  let maxNumTokens : Int := (cfg.maxModelTokens : Int) - (cfg.maxResponseTokens : Int)
  match buildLoop encodeLen getMsg maxNumTokens systemMessageOffset fuel
      messages nextMessages 0 opts.parentMessageId with
  | none => return none
  | some (msgs, numTokens) =>
    return some { messages := msgs,
                  maxTokens := responseBudget cfg.maxModelTokens cfg.maxResponseTokens numTokens,
                  numTokens := numTokens,
                  imgPath := imgPath }

/-! ### Completion transport: buffered mode -/

/-- The `message` of a response choice. -/
structure ChoiceMessage where
  role : String
  content : String
deriving Repr, DecidableEq

/-- One element of `response.choices`. -/
structure RespChoice where
  message : ChoiceMessage
deriving Repr, DecidableEq

/-- The observable part of a buffered HTTP response: `ok`, `status`,
`statusText`, the raw body text (read on failure), and the parsed JSON
fields the handler reads (`id`, `choices`, `usage`, `detail`). -/
structure FetchResponse where
  ok : Bool
  status : Nat
  statusText : String
  bodyText : String
  id : String := ""
  choices : List RespChoice := []
  usage : Option Usage := none
  errDetail : Option String := none
deriving Repr, DecidableEq

/-- The failures `sendMessage` can reject with: the `ChatGPTError`
carrying status code and text, the no-choices protocol `Error`, a
re-thrown exception (fetch failure, stream decode error), a thrown
`_buildMessages` exception, and the p-timeout `TimeoutError`. -/
inductive SendError where
  | chatgpt (message : String) (statusCode : Option Nat) (statusText : Option String)
  | protocol (message : String)
  | thrown (err : String)
  | build (e : BuildError)
  | timeout
deriving Repr, DecidableEq

/-- The buffered (non-streaming) branch of `sendMessage`: one fetch; a
non-ok status rejects with a `ChatGPTError` carrying the status code and
the response body; an ok response with choices fills the result from the
first choice's message; an ok response without choices rejects with an
`Error`.  `Except.error` on the argument models the fetch itself
throwing. -/
def handleBuffered (res : Except String FetchResponse) (result : ChatMessage) :
    Except SendError ChatMessage :=
  match res with
  | .error err => .error (.thrown err)
  | .ok res =>
    if res.ok = false then
      .error (.chatgpt
        ("OpenAI error " ++ (if res.status ≠ 0 then toString res.status else res.statusText)
          ++ ": " ++ res.bodyText)
        (some res.status) (some res.statusText))
    else
      let result := if res.id ≠ "" then { result with id := res.id } else result
      match res.choices with
      | choice :: _ =>
        let message := choice.message
        let result := { result with text := message.content }
        let result :=
          if message.role ≠ "" then { result with role := message.role } else result
        .ok { result with detail := some { id := res.id, usage := res.usage } }
      | [] => .error (.protocol ("OpenAI error: " ++ res.errDetail.getD "unknown"))

/-! ### Completion transport: streaming mode -/

/-- A streamed delta payload (`choices[0].delta`). -/
structure Delta where
  content : Option String := none
  role : Option String := none
deriving Repr, DecidableEq

/-- One element of a delta frame's `choices`. -/
structure DeltaChoice where
  delta : Delta
  finish_reason : Option String := none
deriving Repr, DecidableEq

/-- A parsed streaming frame (`CreateChatCompletionDeltaResponse`). -/
structure DeltaResponse where
  id : String := ""
  choices : List DeltaChoice := []
deriving Repr, DecidableEq

/-- A raw SSE event as seen by `onMessage`: the `[DONE]` sentinel, a
frame whose data parses as JSON, or a frame whose parse throws. -/
inductive Frame where
  | done
  | data (response : DeltaResponse)
  | malformed (err : String)
deriving Repr, DecidableEq

/-- The mutation one parsed delta frame applies to the accumulating
assistant message (the body of `onMessage` below the sentinel check). -/
def applyFrameData (imgPath : String) (r : DeltaResponse) (result : ChatMessage) :
    ChatMessage :=
  let result := if r.id ≠ "" then { result with id := r.id } else result
  match r.choices with
  | [] => result
  | choice :: _ =>
    let delta := choice.delta
    let result := { result with delta := delta.content }
    let result :=
      if delta.content.getD "" ≠ "" then
        { result with text := result.text ++ delta.content.getD "" }
      else if choice.finish_reason = some "stop" then
        { result with text := result.text ++ imgPath }
      else result
    let result :=
      if delta.role.getD "" ≠ "" then { result with role := delta.role.getD "" }
      else result
    { result with detail := some { id := r.id, usage := none } }

/-- The streaming branch of `sendMessage`: frames arrive in order; the
sentinel resolves with the accumulated text trimmed; a malformed frame
rejects; a stream that ends without a sentinel leaves the promise
pending (`none`). -/
def processFrames (imgPath : String) :
    List Frame → ChatMessage → Option (Except SendError ChatMessage)
  | [], _ => none
  | .done :: _, result => some (.ok { result with text := jsTrim result.text })
  | .malformed err :: _, _ => some (.error (.thrown err))
  | .data r :: rest, result => processFrames imgPath rest (applyFrameData imgPath r result)

/-! ### Request controller (`sendMessage`) -/

/-- The message store, as written through `upsertMessage`: an
association list keyed by message id, newest write first. -/
abbrev Store : Type := List (String × ChatMessage)

/-- `upsertMessage` via the default Keyv-backed implementation:
`messageStore.set(message.id, message)`. -/
def upsertMessage (store : Store) (m : ChatMessage) : Store :=
  (m.id, m) :: List.filter (fun kv => kv.1 ≠ m.id) store

/-- The user message created synchronously at send time
(`latestQuestion`). -/
def userMessageOf (text : String) (opts : SendOpts) (messageId : String) : ChatMessage :=
  { role := "user", id := messageId, conversationId := opts.conversationId,
    parentMessageId := opts.parentMessageId, text := text }

/-- The empty assistant placeholder created at send time (`result`):
its `parentMessageId` is this call's user message id. -/
def assistantPlaceholder (opts : SendOpts) (messageId assistantId : String) : ChatMessage :=
  { role := "assistant", id := assistantId, conversationId := opts.conversationId,
    parentMessageId := some messageId, text := "" }

/-- The post-processing step of `sendMessage`: when the resolved message
carries a `detail` without provider-reported `usage`, an estimate is
attached (`prompt_tokens` from the builder, `completion_tokens` by
token-counting the result text), marked `estimated`. -/
def attachEstimatedUsage (encodeLen : String → Nat) (numTokens : Nat)
    (message : ChatMessage) : ChatMessage :=
  match message.detail with
  | none => message
  | some d =>
    match d.usage with
    | some _ => message
    | none =>
      let promptTokens := numTokens
      let completionTokens := getTokenCount encodeLen message.text
      let usage : Usage :=
        { prompt_tokens := promptTokens,
          completion_tokens := completionTokens,
          total_tokens := promptTokens + completionTokens,
          estimated := true }
      { message with detail := some { d with usage := some usage } }

/-- The orchestration of `sendMessage` (timeout racing aside): resolve
the message id, build the context (a thrown build exception rejects
before any transport request), run the mode the options select against
the supplied wire data, and on success attach estimated usage and
persist first the user message, then the assistant message, before
resolving.  The first component is `none` while the promise is still
pending; the second is the message store after the call. -/
def sendMessage (encodeLen : String → Nat) (getMsg : String → Option ChatMessage)
    (cfg : BuildConfig) (fuel : Nat) (freshMessageId assistantId : String)
    (frames : List Frame) (bufResp : Except String FetchResponse)
    (text : String) (opts : SendOpts) (store : Store) :
    Option (Except SendError ChatMessage) × Store :=
  let messageId := opts.messageId.getD freshMessageId
  let stream := opts.stream.getD opts.onProgress
  match buildMessages encodeLen getMsg cfg fuel text opts with
  | .error e => (some (.error (.build e)), store)
  | .ok none => (none, store)
  | .ok (some built) =>
    let latestQuestion := userMessageOf text opts messageId
    let result := assistantPlaceholder opts messageId assistantId
    let raw : Option (Except SendError ChatMessage) :=
      if stream then processFrames built.imgPath frames result
      else some (handleBuffered bufResp result)
    match raw with
    | none => (none, store)
    | some (.error e) => (some (.error e), store)
    | some (.ok message) =>
      let message := attachEstimatedUsage encodeLen built.numTokens message
      (some (.ok message), upsertMessage (upsertMessage store latestQuestion) message)

/-! ### Timeout and cancellation wiring -/

/-- The abort state of the internally created `AbortController`. -/
structure AbortState where
  aborted : Bool
deriving Repr, DecidableEq

/-- JS truthiness of `timeoutMs`. -/
def timeoutTruthy : Option Nat → Bool
  | none => false
  | some t => t ≠ 0

/-- Whether `sendMessage` creates its own `AbortController`: only when a
timeout is configured and no external `abortSignal` was supplied. -/
def createsAbortController (opts : SendOpts) : Bool :=
  timeoutTruthy opts.timeoutMs && !opts.abortSignal

/-- The `cancel` handler attached to the response promise: present only
when a timeout is configured and the internal controller exists, and it
aborts that controller. -/
def responseCancel (opts : SendOpts) : Option (AbortState → AbortState) :=
  if timeoutTruthy opts.timeoutMs && createsAbortController opts then
    some (fun _ => { aborted := true })
  else none

/-- Modelled from the spec: the external p-timeout library (not part of
this repository's sources) races the promise against the timer; when
the timeout elapses it first invokes the promise's `cancel` handler when
one is attached, and only then surfaces the timeout error to the
caller.  The returned pair is the abort state observed at the moment
the error surfaces, with the surfaced error. -/
def pTimeoutElapse (cancel : Option (AbortState → AbortState)) (s : AbortState) :
    AbortState × SendError :=
  match cancel with
  | some c => (c s, SendError.timeout)
  | none => (s, SendError.timeout)

/-- The message store resolves `pid` to exactly the given ancestor
chain (listed newest-first, the walk order), and after the last listed
ancestor the walk dead-ends: no parent reference, an empty one, or one
the store cannot resolve. -/
def ChainOf (getMsg : String → Option ChatMessage) : Option String → List ChatMessage → Prop
  | pid, [] => pid.getD "" = "" ∨ getMsg (pid.getD "") = none
  | pid, m :: rest =>
    pid = some m.id ∧ m.id ≠ "" ∧ getMsg m.id = some m ∧
      ChainOf getMsg m.parentMessageId rest

/-- A streamed frame carrying exactly one content fragment (the shape
of an ordinary delta frame). -/
def contentFrame (s : String) : Frame :=
  .data { id := "", choices := [{ delta := { content := some s, role := none },
                                  finish_reason := none }] }

/-! ### Concrete fixtures used in closed instance checks -/

/-- Fixture: a stored assistant turn whose parent is `msgB`. -/
def msgA : ChatMessage :=
  { id := "a", role := "assistant", text := "A1", parentMessageId := some "b" }

/-- Fixture: a stored user turn with no parent. -/
def msgB : ChatMessage := { id := "b", role := "user", text := "B2" }

/-- Fixture: a two-message store realizing the chain `msgA → msgB`. -/
def getMsgAB : String → Option ChatMessage :=
  fun i => if i = "a" then some msgA else if i = "b" then some msgB else none

/-- The accumulating-message update a single content fragment causes
(delta recorded, text extended, detail set to the frame). -/
def withFragment (f : String) (r : ChatMessage) : ChatMessage :=
  { r with
    delta := some f
    text := r.text ++ f
    detail := some { id := "", usage := none } }

/-- Fixture: the assistant message a successful buffered exchange with
`resOkay` resolves with (estimated usage attached). -/
def mFinal : ChatMessage :=
  { id := "a1", role := "assistant", parentMessageId := some "m1", text := "hi there",
    detail := some { id := "", usage := some ⟨25, 8, 33, true⟩ } }

/-- Fixture: a failed HTTP response. -/
def resFail : FetchResponse :=
  { ok := false, status := 404, statusText := "NF", bodyText := "nope" }

/-- Fixture: a success HTTP response with no choices. -/
def resEmpty : FetchResponse :=
  { ok := true, status := 200, statusText := "OK", bodyText := "" }

/-- Fixture: a success HTTP response with one choice. -/
def resOkay : FetchResponse :=
  { ok := true, status := 200, statusText := "OK", bodyText := "",
    choices := [{ message := { role := "assistant", content := "hi there" } }] }

/-! ### Helper lemmas -/

theorem roleLine_length_pos (m : RequestMessage) : 0 < (roleLine m).length := by
  have h1 : ("Instructions:\n" : String).length = 14 := by decide
  have h2 : ("User:\n" : String).length = 6 := by decide
  have h3 : ("ChatGPT:\n" : String).length = 9 := by
    decide
  unfold roleLine
  split
  · rw [String.length_append]
    omega
  · split
    · rw [String.length_append]
      omega
    · rw [String.length_append]
      omega

theorem joinSep_length_head (sep a : String) (rest : List String) :
    a.length ≤ (joinSep sep (a :: rest)).length := by
  cases rest with
  | nil => simp [joinSep]
  | cons b t =>
    show a.length ≤ (a ++ sep ++ joinSep sep (b :: t)).length
    rw [String.length_append, String.length_append]
    omega

theorem serializePrompt_ne_empty (ms : List RequestMessage) (h : ms ≠ []) :
    serializePrompt ms ≠ "" := by
  cases ms with
  | nil => exact absurd rfl h
  | cons m rest =>
    intro heq
    have hlen := congrArg String.length heq
    rw [serializePrompt, List.map_cons] at hlen
    have h1 := roleLine_length_pos m
    have h2 := joinSep_length_head "\n\n" (roleLine m) (rest.map roleLine)
    have h3 : ("" : String).length = 0 := rfl
    omega

theorem getLast?_splice {α : Type} (l : List α) (e : α) (off : Nat) (h : off < l.length) :
    (l.take off ++ e :: l.drop off).getLast? = l.getLast? := by
  have hd : l.drop off ≠ [] := by
    intro hnil
    rw [List.drop_eq_nil_iff] at hnil
    omega
  rw [List.getLast?_append_of_ne_nil _ (by simp : e :: l.drop off ≠ [])]
  have : e :: l.drop off = [e] ++ l.drop off := rfl
  rw [this, List.getLast?_append_of_ne_nil _ hd]
  conv_rhs => rw [← List.take_append_drop off l]
  rw [List.getLast?_append_of_ne_nil _ hd]

/-- One-step unfolding of `buildLoop` with positive fuel. -/
theorem buildLoop_succ (encodeLen : String → Nat) (getMsg : String → Option ChatMessage)
    (maxNumTokens : Int) (off fuel : Nat) (messages nextMessages : List RequestMessage)
    (numTokens : Nat) (pid : Option String) :
    buildLoop encodeLen getMsg maxNumTokens off (fuel + 1) messages nextMessages numTokens pid =
      (if serializePrompt nextMessages ≠ "" ∧
          ¬ ((getTokenCount encodeLen (serializePrompt nextMessages) : Int) ≤ maxNumTokens) then
        some (messages, numTokens)
      else if ¬ ((getTokenCount encodeLen (serializePrompt nextMessages) : Int) ≤ maxNumTokens) then
        some (nextMessages, getTokenCount encodeLen (serializePrompt nextMessages))
      else if pid.getD "" = "" then
        some (nextMessages, getTokenCount encodeLen (serializePrompt nextMessages))
      else
        match getMsg (pid.getD "") with
        | none => some (nextMessages, getTokenCount encodeLen (serializePrompt nextMessages))
        | some parentMessage =>
          buildLoop encodeLen getMsg maxNumTokens off fuel nextMessages
            (nextMessages.take off ++
              entryOfParent parentMessage :: nextMessages.drop off)
            (getTokenCount encodeLen (serializePrompt nextMessages))
            parentMessage.parentMessageId) := rfl

/-- Invariant of the chain walk: the last entry of every accepted
sequence is the entry the walk started with (the new user entry), since
splices happen strictly before it. -/
theorem buildLoop_getLast (encodeLen : String → Nat) (getMsg : String → Option ChatMessage)
    (maxNumTokens : Int) (off : Nat) (u : RequestMessage) :
    ∀ (fuel : Nat) (messages nextMessages : List RequestMessage) (numTokens : Nat)
      (pid : Option String) (res : List RequestMessage × Nat),
      (messages.getLast? = some u ∨
        ((getTokenCount encodeLen (serializePrompt nextMessages) : Int) ≤ maxNumTokens)) →
      nextMessages.getLast? = some u →
      off < nextMessages.length →
      buildLoop encodeLen getMsg maxNumTokens off fuel messages nextMessages numTokens pid
        = some res →
      res.1.getLast? = some u := by
  intro fuel
  induction fuel with
  | zero =>
    intro _ _ _ _ _ _ _ _ h
    simp [buildLoop] at h
  | succ n ih =>
    intro messages nextMessages numTokens pid res hH hlast hoff hres
    rw [buildLoop_succ] at hres
    by_cases h1 : serializePrompt nextMessages ≠ "" ∧
        ¬ ((getTokenCount encodeLen (serializePrompt nextMessages) : Int) ≤ maxNumTokens)
    · rw [if_pos h1] at hres
      cases hres
      rcases hH with h | h
      · exact h
      · exact absurd h h1.2
    · rw [if_neg h1] at hres
      by_cases h2 : ¬ ((getTokenCount encodeLen (serializePrompt nextMessages) : Int) ≤ maxNumTokens)
      · rw [if_pos h2] at hres
        cases hres
        exact hlast
      · rw [if_neg h2] at hres
        by_cases hp : pid.getD "" = ""
        · rw [if_pos hp] at hres
          cases hres
          exact hlast
        · rw [if_neg hp] at hres
          cases hg : getMsg (pid.getD "") with
          | none =>
            rw [hg] at hres
            cases hres
            exact hlast
          | some parent =>
            rw [hg] at hres
            refine ih nextMessages _ _ _ res (Or.inl hlast) ?_ ?_ hres
            · rw [getLast?_splice _ _ _ hoff]
              exact hlast
            · rw [List.length_append, List.length_cons, List.length_take]
              omega

/-- Invariant of the chain walk: whenever the current candidate fits the
ceiling (or an acceptance has already synchronized the state), the
returned token count is the count of the returned sequence's serialized
prompt. -/
theorem buildLoop_numTokens (encodeLen : String → Nat) (getMsg : String → Option ChatMessage)
    (maxNumTokens : Int) (off : Nat) :
    ∀ (fuel : Nat) (messages nextMessages : List RequestMessage) (numTokens : Nat)
      (pid : Option String) (res : List RequestMessage × Nat),
      (numTokens = getTokenCount encodeLen (serializePrompt messages) ∨
        ((getTokenCount encodeLen (serializePrompt nextMessages) : Int) ≤ maxNumTokens)) →
      buildLoop encodeLen getMsg maxNumTokens off fuel messages nextMessages numTokens pid
        = some res →
      res.2 = getTokenCount encodeLen (serializePrompt res.1) := by
  intro fuel
  induction fuel with
  | zero =>
    intro _ _ _ _ _ _ h
    simp [buildLoop] at h
  | succ n ih =>
    intro messages nextMessages numTokens pid res hH hres
    rw [buildLoop_succ] at hres
    by_cases h1 : serializePrompt nextMessages ≠ "" ∧
        ¬ ((getTokenCount encodeLen (serializePrompt nextMessages) : Int) ≤ maxNumTokens)
    · rw [if_pos h1] at hres
      cases hres
      rcases hH with h | h
      · exact h
      · exact absurd h h1.2
    · rw [if_neg h1] at hres
      by_cases h2 : ¬ ((getTokenCount encodeLen (serializePrompt nextMessages) : Int) ≤ maxNumTokens)
      · rw [if_pos h2] at hres
        cases hres
        rfl
      · rw [if_neg h2] at hres
        by_cases hp : pid.getD "" = ""
        · rw [if_pos hp] at hres
          cases hres
          rfl
        · rw [if_neg hp] at hres
          cases hg : getMsg (pid.getD "") with
          | none =>
            rw [hg] at hres
            cases hres
            rfl
          | some parent =>
            rw [hg] at hres
            exact ih _ _ _ _ res (Or.inl rfl) hres

/-- Reduction of `buildMessages` on a plain (marker-free) non-empty
input: the walk starts from the optional system entry plus the new user
entry. -/
theorem buildMessages_plain (encodeLen : String → Nat) (getMsg : String → Option ChatMessage)
    (cfg : BuildConfig) (fuel : Nat) (text : String) (opts : SendOpts)
    (hmarker : includesMarker text = false) (htext : text ≠ "") :
    buildMessages encodeLen getMsg cfg fuel text opts =
      match buildLoop encodeLen getMsg ((cfg.maxModelTokens : Int) - (cfg.maxResponseTokens : Int))
          (systemPart (opts.systemMessage.getD cfg.systemMessage)).length fuel
          (systemPart (opts.systemMessage.getD cfg.systemMessage))
          (systemPart (opts.systemMessage.getD cfg.systemMessage) ++ [userEntry text opts]) 0
          opts.parentMessageId with
      | none => Except.ok none
      | some (msgs, numTokens) =>
        Except.ok (some
          ⟨msgs, responseBudget cfg.maxModelTokens cfg.maxResponseTokens numTokens,
            numTokens, ""⟩) := by
  unfold buildMessages buildFront
  rw [hmarker]
  simp only [Bool.false_eq_true, if_false, if_pos htext]
  rfl

/-- The chain walk under slack budget: when the store realizes the
chain `chain` (newest first) and every extension step still fits the
ceiling, the walk splices every ancestor right after the system prefix
and returns the full sequence with its token count. -/
theorem buildLoop_chain (encodeLen : String → Nat) (getMsg : String → Option ChatMessage)
    (maxNumTokens : Int) (sysPartL : List RequestMessage) :
    ∀ (chain : List ChatMessage) (rest : List RequestMessage)
      (messages0 : List RequestMessage) (numTokens0 : Nat) (pid : Option String) (fuel : Nat),
      ChainOf getMsg pid chain →
      (∀ k, k ≤ chain.length →
        ((getTokenCount encodeLen (serializePrompt
          (sysPartL ++ ((chain.take k).reverse.map entryOfParent) ++ rest)) : Int) ≤ maxNumTokens)) →
      chain.length < fuel →
      buildLoop encodeLen getMsg maxNumTokens sysPartL.length fuel messages0
          (sysPartL ++ rest) numTokens0 pid =
        some (sysPartL ++ (chain.reverse.map entryOfParent) ++ rest,
          getTokenCount encodeLen (serializePrompt
            (sysPartL ++ (chain.reverse.map entryOfParent) ++ rest))) := by
  intro chain
  induction chain with
  | nil =>
    intro rest messages0 numTokens0 pid fuel hchain hfits hfuel
    obtain ⟨f, rfl⟩ : ∃ f, fuel = f + 1 := ⟨fuel - 1, by omega⟩
    rw [buildLoop_succ]
    have hvalid := hfits 0 (by omega)
    simp only [List.take_zero, List.reverse_nil, List.map_nil, List.append_nil] at hvalid
    rw [if_neg (fun h => h.2 hvalid), if_neg (not_not_intro hvalid)]
    simp only [List.reverse_nil, List.map_nil, List.append_nil]
    rcases hchain with hp | hg
    · rw [if_pos hp]
    · by_cases hp : pid.getD "" = ""
      · rw [if_pos hp]
      · rw [if_neg hp, hg]
  | cons m chain' ih =>
    intro rest messages0 numTokens0 pid fuel hchain hfits hfuel
    obtain ⟨hpid, hid, hget, hchain'⟩ := hchain
    obtain ⟨f, rfl⟩ : ∃ f, fuel = f + 1 := ⟨fuel - 1, by omega⟩
    rw [buildLoop_succ]
    have hvalid := hfits 0 (by omega)
    simp only [List.take_zero, List.reverse_nil, List.map_nil, List.append_nil] at hvalid
    rw [if_neg (fun h => h.2 hvalid), if_neg (not_not_intro hvalid)]
    subst hpid
    have hgd : (some m.id).getD "" = m.id := rfl
    rw [if_neg (by rw [hgd]; exact hid), hgd, hget]
    have hfits' : ∀ k, k ≤ chain'.length →
        ((getTokenCount encodeLen (serializePrompt
          (sysPartL ++ ((chain'.take k).reverse.map entryOfParent) ++
            (entryOfParent m :: rest))) : Int) ≤ maxNumTokens) := by
      intro k hk
      have := hfits (k + 1) (by simp; omega)
      simp only [List.take_succ_cons, List.reverse_cons, List.map_append, List.map_cons,
        List.map_nil] at this
      simpa [List.append_assoc] using this
    have hrec := ih (entryOfParent m :: rest) (sysPartL ++ rest)
      (getTokenCount encodeLen (serializePrompt (sysPartL ++ rest)))
      m.parentMessageId f hchain' hfits' (by simp at hfuel ⊢; omega)
    show buildLoop encodeLen getMsg maxNumTokens sysPartL.length f (sysPartL ++ rest)
        (List.take sysPartL.length (sysPartL ++ rest) ++
          entryOfParent m :: List.drop sysPartL.length (sysPartL ++ rest))
        (getTokenCount encodeLen (serializePrompt (sysPartL ++ rest)))
        m.parentMessageId = _
    rw [List.take_left, List.drop_left, hrec]
    simp [List.append_assoc]

/-! ### Claim C1 -/

/-- C1 (amended): for every `_buildMessages` call with marker-free
non-empty input text, the returned sequence ends with the new user entry
when the minimal sequence (optional system entry plus new user entry)
fits the ceiling `maxModelTokens − maxResponseTokens`; but when even the
minimal sequence exceeds the ceiling, the builder returns only the
pre-loop prefix (the optional system entry, possibly empty), omitting
the new user entry. -/
theorem c1_minimal_prompt_user_entry (encodeLen : String → Nat)
    (getMsg : String → Option ChatMessage) (cfg : BuildConfig) (fuel : Nat)
    (text : String) (opts : SendOpts) (outcome : BuildOutcome)
    (hmarker : includesMarker text = false) (htext : text ≠ "")
    (hres : buildMessages encodeLen getMsg cfg fuel text opts = Except.ok (some outcome)) :
    ((getTokenCount encodeLen (serializePrompt
        (systemPart (opts.systemMessage.getD cfg.systemMessage) ++ [userEntry text opts])) : Int)
        ≤ (cfg.maxModelTokens : Int) - (cfg.maxResponseTokens : Int) →
      outcome.messages.getLast? = some (userEntry text opts))
    ∧ ((cfg.maxModelTokens : Int) - (cfg.maxResponseTokens : Int) <
        (getTokenCount encodeLen (serializePrompt
          (systemPart (opts.systemMessage.getD cfg.systemMessage) ++ [userEntry text opts])) : Int) →
      outcome.messages = systemPart (opts.systemMessage.getD cfg.systemMessage)) := by
  rw [buildMessages_plain encodeLen getMsg cfg fuel text opts hmarker htext] at hres
  cases hloop : buildLoop encodeLen getMsg
      ((cfg.maxModelTokens : Int) - (cfg.maxResponseTokens : Int))
      (systemPart (opts.systemMessage.getD cfg.systemMessage)).length fuel
      (systemPart (opts.systemMessage.getD cfg.systemMessage))
      (systemPart (opts.systemMessage.getD cfg.systemMessage) ++ [userEntry text opts]) 0
      opts.parentMessageId with
  | none =>
    rw [hloop] at hres
    simp at hres
  | some p =>
    obtain ⟨msgs, n⟩ := p
    rw [hloop] at hres
    simp only [Except.ok.injEq, Option.some.injEq] at hres
    constructor
    · intro hfits
      have := buildLoop_getLast encodeLen getMsg
        ((cfg.maxModelTokens : Int) - (cfg.maxResponseTokens : Int))
        (systemPart (opts.systemMessage.getD cfg.systemMessage)).length
        (userEntry text opts) fuel _ _ 0 opts.parentMessageId (msgs, n)
        (Or.inr hfits) (List.getLast?_concat _) (by simp) hloop
      rw [← hres]
      exact this
    · intro hnofit
      cases fuel with
      | zero => simp [buildLoop] at hloop
      | succ f =>
        rw [buildLoop_succ] at hloop
        rw [if_pos ⟨serializePrompt_ne_empty _ (by simp), not_le.mpr hnofit⟩] at hloop
        obtain ⟨h1, h2⟩ := Prod.mk.injEq .. ▸ (Option.some.injEq .. ▸ hloop)
        rw [← hres, ← h1]

/-- C1 counterexample: a concrete call (character-count tokenizer,
ceiling 10 − 5 = 5, system message `S`, 17-character input) whose
minimal sequence exceeds the ceiling: the builder returns only the
system entry and the new user entry is absent from the result — the
claimed "the returned sequence still contains the new user entry" fails. -/
theorem c1_counterexample :
    buildMessages (fun s => s.length) (fun _ => none) ⟨10, 5, "S", ""⟩ 3
        "this text is long" {} =
      Except.ok (some ⟨systemPart "S", 5, 0, ""⟩)
    ∧ userEntry "this text is long" {} ∉ systemPart "S" := by
  constructor
  · decide
  · decide

/-- C1 witness: a concrete fitting call on which the amended theorem's
hypotheses hold and the returned sequence ends with the user entry. -/
theorem c1_witness :
    (includesMarker "hi" = false ∧ "hi" ≠ "" ∧
      buildMessages (fun s => s.length) (fun _ => none) ⟨100, 20, "S", ""⟩ 3 "hi" {} =
        Except.ok (some ⟨systemPart "S" ++ [userEntry "hi" {}], 20, 25, ""⟩))
    ∧ (⟨systemPart "S" ++ [userEntry "hi" {}], 20, 25, ""⟩ :
        BuildOutcome).messages.getLast? = some (userEntry "hi" {}) :=
  ⟨⟨by decide, by decide, by decide⟩,
    (c1_minimal_prompt_user_entry (fun s => s.length) (fun _ => none) ⟨100, 20, "S", ""⟩ 3
      "hi" {} ⟨systemPart "S" ++ [userEntry "hi" {}], 20, 25, ""⟩
      (by decide) (by decide) (by decide)).1 (by decide)⟩

/-! ### Claim C2 -/

/-- C2 (amended): the response budget `responseBudget` (the
`Math.max(1, Math.min(...))` computed by `_buildMessages`) is always at
least 1; it is at most `maxResponseTokens` whenever that allowance is at
least 1; and it weakly decreases (is antitone, not strictly decreasing)
as the consumed prompt token count grows. -/
theorem c2_budget_bounds_antitone (maxModelTokens maxResponseTokens t1 t2 : Nat)
    (hmr : 1 ≤ maxResponseTokens) (h12 : t1 ≤ t2) :
    1 ≤ responseBudget maxModelTokens maxResponseTokens t1
    ∧ responseBudget maxModelTokens maxResponseTokens t1 ≤ (maxResponseTokens : Int)
    ∧ responseBudget maxModelTokens maxResponseTokens t2 ≤
        responseBudget maxModelTokens maxResponseTokens t1 := by
  unfold responseBudget
  refine ⟨le_max_left _ _, ?_, ?_⟩
  · apply max_le
    · exact_mod_cast hmr
    · exact min_le_right _ _
  · apply max_le_max le_rfl
    apply min_le_min _ le_rfl
    omega

/-- C2 counterexample: at the default configuration (4000 model tokens,
1000 response tokens) the budgets at used-token counts 0 and 1 are both
1000 — the budget does not strictly decrease as consumed tokens
increase. -/
theorem c2_counterexample :
    (0 : Nat) < 1
    ∧ responseBudget 4000 1000 0 = 1000
    ∧ responseBudget 4000 1000 1 = 1000
    ∧ ¬ responseBudget 4000 1000 1 < responseBudget 4000 1000 0 := by
  refine ⟨by decide, by decide, by decide, by decide⟩

/-- C2 witness: the amended bounds at a concrete configuration. -/
theorem c2_witness :
    ((1 : Nat) ≤ 1000 ∧ (3 : Nat) ≤ 7)
    ∧ (1 ≤ responseBudget 4000 1000 3
      ∧ responseBudget 4000 1000 3 ≤ ((1000 : Nat) : Int)
      ∧ responseBudget 4000 1000 7 ≤ responseBudget 4000 1000 3) :=
  ⟨⟨by decide, by decide⟩, c2_budget_bounds_antitone 4000 1000 3 7 (by decide) (by decide)⟩

/-! ### Claim C4 -/

/-- C4: for every ancestor chain realized by the message store (listed
newest-first) whose every extension step fits the ceiling, the builder
returns the optional system entry, then all ancestors oldest-to-newest,
then the new user entry — no ancestor lost or duplicated — together
with the token count of that full sequence. -/
theorem c4_chain_lossless (encodeLen : String → Nat) (getMsg : String → Option ChatMessage)
    (cfg : BuildConfig) (fuel : Nat) (text : String) (opts : SendOpts)
    (chain : List ChatMessage)
    (hmarker : includesMarker text = false) (htext : text ≠ "")
    (hchain : ChainOf getMsg opts.parentMessageId chain)
    (hfits : ∀ k, k ≤ chain.length →
      ((getTokenCount encodeLen (serializePrompt
        (systemPart (opts.systemMessage.getD cfg.systemMessage) ++
          ((chain.take k).reverse.map entryOfParent) ++ [userEntry text opts])) : Int)
        ≤ (cfg.maxModelTokens : Int) - (cfg.maxResponseTokens : Int)))
    (hfuel : chain.length < fuel) :
    buildMessages encodeLen getMsg cfg fuel text opts =
      Except.ok (some
        ⟨systemPart (opts.systemMessage.getD cfg.systemMessage) ++
            (chain.reverse.map entryOfParent) ++ [userEntry text opts],
          responseBudget cfg.maxModelTokens cfg.maxResponseTokens
            (getTokenCount encodeLen (serializePrompt
              (systemPart (opts.systemMessage.getD cfg.systemMessage) ++
                (chain.reverse.map entryOfParent) ++ [userEntry text opts]))),
          getTokenCount encodeLen (serializePrompt
            (systemPart (opts.systemMessage.getD cfg.systemMessage) ++
              (chain.reverse.map entryOfParent) ++ [userEntry text opts])),
          ""⟩) := by
  rw [buildMessages_plain encodeLen getMsg cfg fuel text opts hmarker htext]
  rw [buildLoop_chain encodeLen getMsg _ _ chain [userEntry text opts] _ 0
    opts.parentMessageId fuel hchain hfits hfuel]

/-- C4 witness: the two-ancestor chain `msgA → msgB` under a slack
ceiling is reconstructed in full, oldest-to-newest, between the system
entry and the new user entry. -/
theorem c4_witness :
    (includesMarker "hi" = false ∧ "hi" ≠ "" ∧
      ChainOf getMsgAB (some "a") [msgA, msgB] ∧ [msgA, msgB].length < 5)
    ∧ buildMessages (fun s => s.length) getMsgAB ⟨200, 50, "S", ""⟩ 5 "hi"
        { parentMessageId := some "a" } =
      Except.ok (some
        ⟨systemPart "S" ++ ([msgA, msgB].reverse.map entryOfParent) ++
            [userEntry "hi" { parentMessageId := some "a" }],
          responseBudget 200 50 (getTokenCount (fun s => s.length) (serializePrompt
            (systemPart "S" ++ ([msgA, msgB].reverse.map entryOfParent) ++
              [userEntry "hi" { parentMessageId := some "a" }]))),
          getTokenCount (fun s => s.length) (serializePrompt
            (systemPart "S" ++ ([msgA, msgB].reverse.map entryOfParent) ++
              [userEntry "hi" { parentMessageId := some "a" }])),
          ""⟩) :=
  ⟨⟨by decide, by decide,
      ⟨rfl, by decide, by decide, rfl, by decide, by decide, Or.inl rfl⟩, by decide⟩,
    c4_chain_lossless (fun s => s.length) getMsgAB ⟨200, 50, "S", ""⟩ 5 "hi"
      { parentMessageId := some "a" } [msgA, msgB] (by decide) (by decide)
      ⟨rfl, by decide, by decide, rfl, by decide, by decide, Or.inl rfl⟩
      (by decide) (by decide)⟩

/-! ### Claim C5 -/

/-- C5 (amended): the returned response budget always equals
`max(1, min(maxModelTokens − numTokens, maxResponseTokens))` for the
`numTokens` the builder reports; and that reported count equals the
token count of the returned (last accepted) sequence whenever the
minimal sequence fits the ceiling — but not when even the first attempt
is rejected (then the reported count stays 0 while the returned
sequence is the system-only prefix). -/
theorem c5_budget_formula (encodeLen : String → Nat) (getMsg : String → Option ChatMessage)
    (cfg : BuildConfig) (fuel : Nat) (text : String) (opts : SendOpts)
    (outcome : BuildOutcome)
    (hres : buildMessages encodeLen getMsg cfg fuel text opts = Except.ok (some outcome)) :
    outcome.maxTokens = responseBudget cfg.maxModelTokens cfg.maxResponseTokens outcome.numTokens
    ∧ (includesMarker text = false → text ≠ "" →
      ((getTokenCount encodeLen (serializePrompt
        (systemPart (opts.systemMessage.getD cfg.systemMessage) ++ [userEntry text opts])) : Int)
        ≤ (cfg.maxModelTokens : Int) - (cfg.maxResponseTokens : Int)) →
      outcome.numTokens = getTokenCount encodeLen (serializePrompt outcome.messages)) := by
  constructor
  · unfold buildMessages at hres
    cases hf : buildFront cfg text opts with
    | error e =>
      rw [hf] at hres
      exact absurd hres (by simp [Bind.bind, Except.bind])
    | ok pr =>
      rw [hf] at hres
      obtain ⟨nm, ip⟩ := pr
      replace hres :
          (match buildLoop encodeLen getMsg
              ((cfg.maxModelTokens : Int) - (cfg.maxResponseTokens : Int))
              (systemPart (opts.systemMessage.getD cfg.systemMessage)).length fuel
              (systemPart (opts.systemMessage.getD cfg.systemMessage)) nm 0
              opts.parentMessageId with
            | none => (Except.ok none : Except BuildError (Option BuildOutcome))
            | some (msgs, numTokens) =>
              Except.ok (some ⟨msgs,
                responseBudget cfg.maxModelTokens cfg.maxResponseTokens numTokens,
                numTokens, ip⟩)) = Except.ok (some outcome) := hres
      cases hloop : buildLoop encodeLen getMsg
          ((cfg.maxModelTokens : Int) - (cfg.maxResponseTokens : Int))
          (systemPart (opts.systemMessage.getD cfg.systemMessage)).length fuel
          (systemPart (opts.systemMessage.getD cfg.systemMessage)) nm 0
          opts.parentMessageId with
      | none =>
        rw [hloop] at hres
        simp at hres
      | some p =>
        obtain ⟨msgs, n⟩ := p
        rw [hloop] at hres
        simp only [Except.ok.injEq, Option.some.injEq] at hres
        rw [← hres]
  · intro hmarker htext hfits
    rw [buildMessages_plain encodeLen getMsg cfg fuel text opts hmarker htext] at hres
    cases hloop : buildLoop encodeLen getMsg
        ((cfg.maxModelTokens : Int) - (cfg.maxResponseTokens : Int))
        (systemPart (opts.systemMessage.getD cfg.systemMessage)).length fuel
        (systemPart (opts.systemMessage.getD cfg.systemMessage))
        (systemPart (opts.systemMessage.getD cfg.systemMessage) ++ [userEntry text opts]) 0
        opts.parentMessageId with
    | none =>
      rw [hloop] at hres
      simp at hres
    | some p =>
      obtain ⟨msgs, n⟩ := p
      rw [hloop] at hres
      simp only [Except.ok.injEq, Option.some.injEq] at hres
      have := buildLoop_numTokens encodeLen getMsg
        ((cfg.maxModelTokens : Int) - (cfg.maxResponseTokens : Int))
        (systemPart (opts.systemMessage.getD cfg.systemMessage)).length fuel _ _ 0
        opts.parentMessageId (msgs, n) (Or.inr hfits) hloop
      rw [← hres]
      exact this

/-- C5 counterexample: the concrete first-rejection run of
`c1_counterexample` returns `maxTokens = 5`, but the formula evaluated
with the token count of the actually returned sequence gives 1 — the
reported `numTokens` (0) is not the token count of the returned
sequence. -/
theorem c5_counterexample :
    buildMessages (fun s => s.length) (fun _ => none) ⟨10, 5, "S", ""⟩ 3
        "this text is long" {} =
      Except.ok (some ⟨systemPart "S", 5, 0, ""⟩)
    ∧ (5 : Int) ≠ responseBudget 10 5
        (getTokenCount (fun s => s.length) (serializePrompt (systemPart "S"))) := by
  constructor
  · decide
  · decide

/-- C5 witness: the amended formula at a concrete fitting run. -/
theorem c5_witness :
    buildMessages (fun s => s.length) (fun _ => none) ⟨100, 20, "S", ""⟩ 3 "hi" {} =
      Except.ok (some ⟨systemPart "S" ++ [userEntry "hi" {}], 20, 25, ""⟩)
    ∧ ((⟨systemPart "S" ++ [userEntry "hi" {}], 20, 25, ""⟩ : BuildOutcome).maxTokens =
        responseBudget 100 20
          (⟨systemPart "S" ++ [userEntry "hi" {}], 20, 25, ""⟩ : BuildOutcome).numTokens
      ∧ (includesMarker "hi" = false → "hi" ≠ "" →
        ((getTokenCount (fun s => s.length) (serializePrompt
          (systemPart (({} : SendOpts).systemMessage.getD (⟨100, 20, "S", ""⟩ :
            BuildConfig).systemMessage) ++ [userEntry "hi" {}])) : Int)
          ≤ ((100 : Nat) : Int) - ((20 : Nat) : Int)) →
        (⟨systemPart "S" ++ [userEntry "hi" {}], 20, 25, ""⟩ : BuildOutcome).numTokens =
          getTokenCount (fun s => s.length) (serializePrompt
            (⟨systemPart "S" ++ [userEntry "hi" {}], 20, 25, ""⟩ :
              BuildOutcome).messages))) :=
  ⟨by decide,
    c5_budget_formula (fun s => s.length) (fun _ => none) ⟨100, 20, "S", ""⟩ 3 "hi" {}
      ⟨systemPart "S" ++ [userEntry "hi" {}], 20, 25, ""⟩ (by decide)⟩


theorem join_foldl_hoist : ∀ (l : List String) (s : String),
    l.foldl (· ++ ·) s = s ++ l.foldl (· ++ ·) ""
  | [], s => (String.append_empty s).symm
  | a :: l, s => by
    show l.foldl (· ++ ·) (s ++ a) = s ++ l.foldl (· ++ ·) ("" ++ a)
    rw [join_foldl_hoist l (s ++ a), join_foldl_hoist l ("" ++ a), String.empty_append,
      String.append_assoc]

theorem join_cons (a : String) (l : List String) :
    String.join (a :: l) = a ++ String.join l := by
  show l.foldl (· ++ ·) ("" ++ a) = a ++ String.join l
  rw [String.empty_append]
  exact join_foldl_hoist l a

theorem processFrames_nil (imgPath : String) (r : ChatMessage) :
    processFrames imgPath [] r = none := rfl

theorem processFrames_done (imgPath : String) (rest : List Frame) (r : ChatMessage) :
    processFrames imgPath (Frame.done :: rest) r =
      some (Except.ok { r with text := jsTrim r.text }) := rfl

theorem processFrames_malformed (imgPath err : String) (rest : List Frame) (r : ChatMessage) :
    processFrames imgPath (Frame.malformed err :: rest) r =
      some (Except.error (SendError.thrown err)) := rfl

theorem processFrames_data (imgPath : String) (d : DeltaResponse) (rest : List Frame)
    (r : ChatMessage) :
    processFrames imgPath (Frame.data d :: rest) r =
      processFrames imgPath rest (applyFrameData imgPath d r) := rfl

theorem applyFrameData_parentMessageId (imgPath : String) (d : DeltaResponse)
    (r : ChatMessage) :
    (applyFrameData imgPath d r).parentMessageId = r.parentMessageId := by
  obtain ⟨di, dch⟩ := d
  cases dch with
  | nil =>
    simp [applyFrameData, apply_ite ChatMessage.parentMessageId]
  | cons c cs =>
    simp [applyFrameData, apply_ite ChatMessage.parentMessageId]

theorem processFrames_parentMessageId (imgPath : String) :
    ∀ (frames : List Frame) (r m : ChatMessage),
      processFrames imgPath frames r = some (Except.ok m) →
      m.parentMessageId = r.parentMessageId := by
  intro frames
  induction frames with
  | nil =>
    intro r m h
    rw [processFrames_nil] at h
    cases h
  | cons fr rest ih =>
    intro r m h
    cases fr with
    | done =>
      rw [processFrames_done] at h
      obtain rfl : { r with text := jsTrim r.text } = m := by
        cases h
        rfl
      rfl
    | malformed err =>
      rw [processFrames_malformed] at h
      cases h
    | data d =>
      rw [processFrames_data] at h
      rw [ih _ _ h, applyFrameData_parentMessageId]

theorem handleBuffered_parentMessageId (res : Except String FetchResponse)
    (r m : ChatMessage) (h : handleBuffered res r = Except.ok m) :
    m.parentMessageId = r.parentMessageId := by
  cases res with
  | error e => simp [handleBuffered] at h
  | ok fr =>
    simp only [handleBuffered] at h
    split at h
    · cases h
    · split at h
      · cases h
        simp [apply_ite ChatMessage.parentMessageId]
      · cases h

theorem attachEstimatedUsage_parentMessageId (encodeLen : String → Nat) (numTokens : Nat)
    (m : ChatMessage) :
    (attachEstimatedUsage encodeLen numTokens m).parentMessageId = m.parentMessageId := by
  unfold attachEstimatedUsage
  split
  · rfl
  · split
    · rfl
    · rfl

theorem contentFrame_def (s : String) :
    contentFrame s =
      Frame.data
        { id := "",
          choices := [{ delta := { content := some s, role := none },
                        finish_reason := none }] } := rfl

theorem applyFrameData_contentFrame (imgPath f : String) (r : ChatMessage) (hf : f ≠ "") :
    applyFrameData imgPath
        { id := "",
          choices := [{ delta := { content := some f, role := none },
                        finish_reason := none }] } r = withFragment f r := by
  simp [applyFrameData, withFragment, hf]

theorem processFrames_content_aux (imgPath : String) :
    ∀ (frags : List String) (r : ChatMessage), (∀ f ∈ frags, f ≠ "") →
      ∃ m, processFrames imgPath (frags.map contentFrame ++ [Frame.done]) r
          = some (Except.ok m)
        ∧ m.text = jsTrim (r.text ++ String.join frags)
        ∧ m.parentMessageId = r.parentMessageId := by
  intro frags
  induction frags with
  | nil =>
    intro r _
    refine ⟨{ r with text := jsTrim r.text }, ?_, ?_, rfl⟩
    · simp only [List.map_nil, List.nil_append, processFrames_done]
    · show jsTrim r.text = jsTrim (r.text ++ String.join [])
      rw [show String.join [] = "" from rfl, String.append_empty]
  | cons f rest ih =>
    intro r hne
    have hf : f ≠ "" := hne f (List.mem_cons_self f rest)
    obtain ⟨m, hm, htext, hpar⟩ := ih (withFragment f r)
      (fun g hg => hne g (List.mem_cons_of_mem f hg))
    refine ⟨m, ?_, ?_, ?_⟩
    · rw [List.map_cons, List.cons_append, contentFrame_def, processFrames_data,
        applyFrameData_contentFrame imgPath f r hf]
      exact hm
    · rw [htext]
      show jsTrim (r.text ++ f ++ String.join rest) = jsTrim (r.text ++ String.join (f :: rest))
      rw [join_cons, String.append_assoc]
    · exact hpar

theorem processFrames_content_pending (imgPath : String) :
    ∀ (frags : List String) (r : ChatMessage),
      processFrames imgPath (frags.map contentFrame) r = none := by
  intro frags
  induction frags with
  | nil =>
    intro r
    rfl
  | cons f rest ih =>
    intro r
    rw [List.map_cons, contentFrame_def, processFrames_data]
    exact ih _

/-- Case characterization of `sendMessage`: either the call does not
resolve successfully and the store is untouched, or it resolves with an
assistant message, the store gains exactly the user message and that
assistant message (in this order), and the assistant message still
points at this call's user message id. -/
theorem sendMessage_spec (encodeLen : String → Nat) (getMsg : String → Option ChatMessage)
    (cfg : BuildConfig) (fuel : Nat) (freshMessageId assistantId : String)
    (frames : List Frame) (bufResp : Except String FetchResponse)
    (text : String) (opts : SendOpts) (store : Store)
    (resP : Option (Except SendError ChatMessage)) (st : Store)
    (h : sendMessage encodeLen getMsg cfg fuel freshMessageId assistantId frames bufResp
        text opts store = (resP, st)) :
    ((∀ m, resP ≠ some (Except.ok m)) ∧ st = store)
    ∨ (∃ m, resP = some (Except.ok m)
        ∧ st = upsertMessage (upsertMessage store
            (userMessageOf text opts (opts.messageId.getD freshMessageId))) m
        ∧ m.parentMessageId = some (opts.messageId.getD freshMessageId)) := by
  unfold sendMessage at h
  cases hb : buildMessages encodeLen getMsg cfg fuel text opts with
  | error e =>
    rw [hb] at h
    cases h
    exact Or.inl ⟨fun m hm => by simp at hm, rfl⟩
  | ok ob =>
    rw [hb] at h
    cases ob with
    | none =>
      cases h
      exact Or.inl ⟨fun m hm => by simp at hm, rfl⟩
    | some built =>
      replace h :
          (match (if opts.stream.getD opts.onProgress then
              processFrames built.imgPath frames
                (assistantPlaceholder opts (opts.messageId.getD freshMessageId) assistantId)
            else some (handleBuffered bufResp
              (assistantPlaceholder opts (opts.messageId.getD freshMessageId) assistantId))) with
          | none => ((none : Option (Except SendError ChatMessage)), store)
          | some (Except.error e) => (some (Except.error e), store)
          | some (Except.ok message) =>
            (some (Except.ok (attachEstimatedUsage encodeLen built.numTokens message)),
              upsertMessage (upsertMessage store (userMessageOf text opts
                  (opts.messageId.getD freshMessageId)))
                (attachEstimatedUsage encodeLen built.numTokens message))) = (resP, st) := h
      cases hraw : (if opts.stream.getD opts.onProgress then
          processFrames built.imgPath frames
            (assistantPlaceholder opts (opts.messageId.getD freshMessageId) assistantId)
        else some (handleBuffered bufResp
          (assistantPlaceholder opts (opts.messageId.getD freshMessageId) assistantId))) with
      | none =>
        rw [hraw] at h
        cases h
        exact Or.inl ⟨fun m hm => by simp at hm, rfl⟩
      | some exc =>
        cases exc with
        | error e =>
          rw [hraw] at h
          cases h
          exact Or.inl ⟨fun m hm => by simp at hm, rfl⟩
        | ok msg =>
          rw [hraw] at h
          cases h
          refine Or.inr ⟨attachEstimatedUsage encodeLen built.numTokens msg, rfl, rfl, ?_⟩
          rw [attachEstimatedUsage_parentMessageId]
          cases hstream : opts.stream.getD opts.onProgress with
          | true =>
            rw [hstream, if_pos rfl] at hraw
            exact processFrames_parentMessageId built.imgPath frames _ msg hraw
          | false =>
            rw [hstream] at hraw
            simp only [Bool.false_eq_true, if_false, Option.some.injEq] at hraw
            exact handleBuffered_parentMessageId bufResp _ msg hraw

/-! ### Claim C3 -/

/-- C3: `sendMessage` persists the conversation pair atomically: when it
resolves successfully with an assistant message, the store gains exactly
the call's user message and that assistant message, written before the
resolution; on any failure (thrown build exception, transport error,
protocol error, stream decode error), and while still pending, the store
is unchanged — neither half of the pair is persisted. -/
theorem c3_atomic_persistence (encodeLen : String → Nat) (getMsg : String → Option ChatMessage)
    (cfg : BuildConfig) (fuel : Nat) (freshMessageId assistantId : String)
    (frames : List Frame) (bufResp : Except String FetchResponse)
    (text : String) (opts : SendOpts) (store : Store)
    (resP : Option (Except SendError ChatMessage)) (st : Store)
    (h : sendMessage encodeLen getMsg cfg fuel freshMessageId assistantId frames bufResp
        text opts store = (resP, st)) :
    (∀ m, resP = some (Except.ok m) →
      st = upsertMessage (upsertMessage store
        (userMessageOf text opts (opts.messageId.getD freshMessageId))) m)
    ∧ (∀ e, resP = some (Except.error e) → st = store)
    ∧ (resP = none → st = store) := by
  rcases sendMessage_spec encodeLen getMsg cfg fuel freshMessageId assistantId frames
      bufResp text opts store resP st h with ⟨hne, rfl⟩ | ⟨m, rfl, rfl, _⟩
  · exact ⟨fun m hm => absurd hm (hne m), fun _ _ => rfl, fun _ => rfl⟩
  · refine ⟨fun m' hm' => ?_, fun e he => ?_, fun hn => ?_⟩
    · obtain rfl : m = m' := by
        simpa using hm'
      rfl
    · simp at he
    · simp at hn

/-- C3 witness: a concrete successful buffered exchange persists
exactly the user/assistant pair; a concrete failed one leaves the store
unchanged. -/
theorem c3_witness :
    ((sendMessage (fun s => s.length) (fun _ => none) ⟨100, 20, "S", ""⟩ 3 "m1" "a1" []
        (Except.ok resOkay) "hi" {} []).1 = some (Except.ok mFinal)
      ∧ (sendMessage (fun s => s.length) (fun _ => none) ⟨100, 20, "S", ""⟩ 3 "m1" "a1" []
        (Except.error "boom") "hi" {} []).1 = some (Except.error (SendError.thrown "boom")))
    ∧ (sendMessage (fun s => s.length) (fun _ => none) ⟨100, 20, "S", ""⟩ 3 "m1" "a1" []
        (Except.ok resOkay) "hi" {} []).2 =
      upsertMessage (upsertMessage [] (userMessageOf "hi" {}
        (({} : SendOpts).messageId.getD "m1"))) mFinal
    ∧ (sendMessage (fun s => s.length) (fun _ => none) ⟨100, 20, "S", ""⟩ 3 "m1" "a1" []
        (Except.error "boom") "hi" {} []).2 = [] :=
  ⟨⟨by decide, by decide⟩,
    (c3_atomic_persistence (fun s => s.length) (fun _ => none) ⟨100, 20, "S", ""⟩ 3 "m1" "a1"
      [] (Except.ok resOkay) "hi" {} [] _ _ rfl).1 mFinal (by decide),
    (c3_atomic_persistence (fun s => s.length) (fun _ => none) ⟨100, 20, "S", ""⟩ 3 "m1" "a1"
      [] (Except.error "boom") "hi" {} [] _ _ rfl).2.1 (SendError.thrown "boom") (by decide)⟩

/-! ### Claim C6 -/

/-- C6: in streaming mode, content fragments followed by the `[DONE]`
sentinel resolve the assistant message exactly once, at the sentinel,
with text equal to the concatenation of the fragments in arrival order
with surrounding whitespace trimmed; without the sentinel the promise
never resolves. -/
theorem c6_stream_sentinel_concat (imgPath : String) (frags : List String)
    (r : ChatMessage) (hne : ∀ f ∈ frags, f ≠ "") (hr : r.text = "") :
    (∃ m, processFrames imgPath (frags.map contentFrame ++ [Frame.done]) r
        = some (Except.ok m)
      ∧ m.text = jsTrim (String.join frags))
    ∧ processFrames imgPath (frags.map contentFrame) r = none := by
  constructor
  · obtain ⟨m, hm, htext, _⟩ := processFrames_content_aux imgPath frags r hne
    refine ⟨m, hm, ?_⟩
    rw [htext, hr, String.empty_append]
  · exact processFrames_content_pending imgPath frags r

/-- C6 witness: fragments `Hel` then `lo` followed by the sentinel give
final text exactly `Hello`, and no resolution happens before the
sentinel. -/
theorem c6_witness :
    ((∀ f ∈ (["Hel", "lo"] : List String), f ≠ "")
      ∧ (assistantPlaceholder {} "m1" "a1").text = ""
      ∧ jsTrim (String.join ["Hel", "lo"]) = "Hello")
    ∧ ((∃ m, processFrames "" ((["Hel", "lo"] : List String).map contentFrame ++ [Frame.done])
          (assistantPlaceholder {} "m1" "a1") = some (Except.ok m)
        ∧ m.text = jsTrim (String.join ["Hel", "lo"]))
      ∧ processFrames "" ((["Hel", "lo"] : List String).map contentFrame)
          (assistantPlaceholder {} "m1" "a1") = none) :=
  ⟨⟨by decide, rfl, by decide⟩,
    c6_stream_sentinel_concat "" ["Hel", "lo"] (assistantPlaceholder {} "m1" "a1")
      (by decide) rfl⟩

/-! ### Claim C7 -/

/-- C7: in buffered mode, a non-success status yields a `ChatGPTError`
carrying the status code and the response body text; a success response
with no choices yields a protocol error; a success response with at
least one choice yields a result whose text and role come from the
first choice's message. -/
theorem c7_buffered_modes (res : FetchResponse) (r : ChatMessage) :
    (res.ok = false →
      handleBuffered (Except.ok res) r =
        Except.error (SendError.chatgpt
          ("OpenAI error " ++ (if res.status ≠ 0 then toString res.status else res.statusText)
            ++ ": " ++ res.bodyText)
          (some res.status) (some res.statusText)))
    ∧ (res.ok = true → res.choices = [] →
      handleBuffered (Except.ok res) r =
        Except.error (SendError.protocol ("OpenAI error: " ++ res.errDetail.getD "unknown")))
    ∧ (∀ c cs, res.ok = true → res.choices = c :: cs → c.message.role ≠ "" →
      ∃ m, handleBuffered (Except.ok res) r = Except.ok m
        ∧ m.text = c.message.content ∧ m.role = c.message.role) := by
  refine ⟨?_, ?_, ?_⟩
  · intro hok
    simp [handleBuffered, hok]
  · intro hok hch
    simp [handleBuffered, hok, hch]
  · intro c cs hok hch hrole
    simp only [handleBuffered, hok, Bool.true_eq_false, if_false, hch]
    rw [if_pos hrole]
    exact ⟨_, rfl, rfl, rfl⟩

/-- C7 witness: the three modes at concrete responses. -/
theorem c7_witness :
    (resFail.ok = false ∧ resEmpty.ok = true ∧ resEmpty.choices = []
      ∧ resOkay.ok = true
      ∧ resOkay.choices = [{ message := { role := "assistant", content := "hi there" } }])
    ∧ (handleBuffered (Except.ok resFail) (assistantPlaceholder {} "m1" "a1") =
        Except.error (SendError.chatgpt
          ("OpenAI error " ++
            (if resFail.status ≠ 0 then toString resFail.status else resFail.statusText)
            ++ ": " ++ resFail.bodyText)
          (some resFail.status) (some resFail.statusText)))
    ∧ (handleBuffered (Except.ok resEmpty) (assistantPlaceholder {} "m1" "a1") =
        Except.error (SendError.protocol ("OpenAI error: " ++ resEmpty.errDetail.getD "unknown")))
    ∧ (∃ m, handleBuffered (Except.ok resOkay) (assistantPlaceholder {} "m1" "a1") = Except.ok m
        ∧ m.text = ({ message := { role := "assistant", content := "hi there" } } :
            RespChoice).message.content
        ∧ m.role = ({ message := { role := "assistant", content := "hi there" } } :
            RespChoice).message.role) :=
  ⟨⟨by decide, by decide, by decide, by decide, by decide⟩,
    (c7_buffered_modes resFail (assistantPlaceholder {} "m1" "a1")).1 (by decide),
    (c7_buffered_modes resEmpty (assistantPlaceholder {} "m1" "a1")).2.1 (by decide) (by decide),
    (c7_buffered_modes resOkay (assistantPlaceholder {} "m1" "a1")).2.2
      { message := { role := "assistant", content := "hi there" } } [] (by decide) (by decide)
      (by decide)⟩

/-! ### Claim C8 -/

/-- C8: when a timeout is configured and no external cancellation signal
was supplied, `sendMessage` creates its own `AbortController`, a cancel
handler is attached, and when the timeout elapses the abort state
observed at the moment the timeout error surfaces is already `true` —
the transport is cancelled before the `TimeoutError` reaches the caller
(the p-timeout behaviour is modelled from the spec). -/
theorem c8_timeout_aborts_first (opts : SendOpts) (s : AbortState)
    (ht : timeoutTruthy opts.timeoutMs = true) (hs : opts.abortSignal = false) :
    createsAbortController opts = true
    ∧ (pTimeoutElapse (responseCancel opts) s).1.aborted = true
    ∧ (pTimeoutElapse (responseCancel opts) s).2 = SendError.timeout := by
  have hc : createsAbortController opts = true := by
    simp [createsAbortController, ht, hs]
  refine ⟨hc, ?_, ?_⟩ <;> simp [responseCancel, pTimeoutElapse, ht, hc]

/-- C8 witness: a concrete call with a 5000 ms timeout and no external
signal. -/
theorem c8_witness :
    (timeoutTruthy ({ timeoutMs := some 5000 } : SendOpts).timeoutMs = true
      ∧ ({ timeoutMs := some 5000 } : SendOpts).abortSignal = false)
    ∧ (createsAbortController { timeoutMs := some 5000 } = true
      ∧ (pTimeoutElapse (responseCancel { timeoutMs := some 5000 }) ⟨false⟩).1.aborted = true
      ∧ (pTimeoutElapse (responseCancel { timeoutMs := some 5000 }) ⟨false⟩).2 =
          SendError.timeout) :=
  ⟨⟨by decide, by decide⟩,
    c8_timeout_aborts_first { timeoutMs := some 5000 } ⟨false⟩ (by decide) (by decide)⟩

/-! ### Claim C9 -/

/-- C9: the assistant placeholder is created with role `assistant`,
empty text, and `parentMessageId` equal to this call's user-message id
(the caller-supplied `messageId` or the fresh UUID); neither response
mode ever modifies `parentMessageId`, so a successfully resolved
`sendMessage` returns an assistant message that still points at the
persisted user message of the same exchange. -/
theorem c9_pair_linkage (opts : SendOpts) (freshMessageId assistantId imgPath text : String) :
    (assistantPlaceholder opts (opts.messageId.getD freshMessageId) assistantId).role
        = "assistant"
    ∧ (assistantPlaceholder opts (opts.messageId.getD freshMessageId) assistantId).text = ""
    ∧ (assistantPlaceholder opts (opts.messageId.getD freshMessageId) assistantId).parentMessageId
        = some (opts.messageId.getD freshMessageId)
    ∧ (userMessageOf text opts (opts.messageId.getD freshMessageId)).id
        = opts.messageId.getD freshMessageId
    ∧ (∀ frames r m, processFrames imgPath frames r = some (Except.ok m) →
        m.parentMessageId = r.parentMessageId)
    ∧ (∀ res r m, handleBuffered res r = Except.ok m → m.parentMessageId = r.parentMessageId)
    ∧ (∀ (encodeLen : String → Nat) (getMsg : String → Option ChatMessage)
        (cfg : BuildConfig) (fuel : Nat) (frames : List Frame)
        (bufResp : Except String FetchResponse) (store : Store)
        (resP : Option (Except SendError ChatMessage)) (st : Store) (m : ChatMessage),
        sendMessage encodeLen getMsg cfg fuel freshMessageId assistantId frames bufResp
          text opts store = (resP, st) →
        resP = some (Except.ok m) →
        m.parentMessageId = some (opts.messageId.getD freshMessageId)) := by
  refine ⟨rfl, rfl, rfl, rfl, processFrames_parentMessageId imgPath,
    handleBuffered_parentMessageId, ?_⟩
  intro encodeLen getMsg cfg fuel frames bufResp store resP st m hsend hres
  rcases sendMessage_spec encodeLen getMsg cfg fuel freshMessageId assistantId frames
      bufResp text opts store resP st hsend with ⟨hne, _⟩ | ⟨m', hm', _, hpar⟩
  · exact absurd hres (hne m)
  · obtain rfl : m' = m := by
      rw [hm'] at hres
      simpa using hres
    exact hpar

/-- C9 witness: the linkage at a concrete successful exchange. -/
theorem c9_witness :
    ((assistantPlaceholder {} (({} : SendOpts).messageId.getD "m1") "a1").role = "assistant"
      ∧ (assistantPlaceholder {} (({} : SendOpts).messageId.getD "m1") "a1").text = ""
      ∧ (assistantPlaceholder {} (({} : SendOpts).messageId.getD "m1") "a1").parentMessageId
          = some (({} : SendOpts).messageId.getD "m1"))
    ∧ (∀ m, (sendMessage (fun s => s.length) (fun _ => none) ⟨100, 20, "S", ""⟩ 3 "m1" "a1" []
          (Except.ok resOkay) "hi" {} []).1 = some (Except.ok m) →
        m.parentMessageId = some (({} : SendOpts).messageId.getD "m1")) :=
  ⟨⟨(c9_pair_linkage {} "m1" "a1" "" "hi").1,
    (c9_pair_linkage {} "m1" "a1" "" "hi").2.1,
    (c9_pair_linkage {} "m1" "a1" "" "hi").2.2.1⟩,
    fun m hm =>
      (c9_pair_linkage {} "m1" "a1" "" "hi").2.2.2.2.2.2
        (fun s => s.length) (fun _ => none) ⟨100, 20, "S", ""⟩ 3 [] (Except.ok resOkay) []
        _ _ m rfl hm⟩

/-! ### Claim C10 -/

/-- C10: when the input text contains the inline image marker, a call
without a `completionParams` object throws inside `_buildMessages` (the
unconditional `opts.completionParams.model` assignment) before any
transport request is issued, and so does a call whose text has no
parenthesized segment (the regex match is dereferenced without a null
check); in both cases `sendMessage` rejects with the build exception,
for every possible wire response, and the store is unchanged. -/
theorem c10_image_marker_crash (encodeLen : String → Nat)
    (getMsg : String → Option ChatMessage) (cfg : BuildConfig) (fuel : Nat)
    (freshMessageId assistantId : String) (frames : List Frame)
    (bufResp : Except String FetchResponse) (text : String) (opts : SendOpts) (store : Store)
    (hmarker : includesMarker text = true) :
    (opts.completionParams = none →
      buildMessages encodeLen getMsg cfg fuel text opts =
        Except.error BuildError.missingCompletionParams
      ∧ sendMessage encodeLen getMsg cfg fuel freshMessageId assistantId frames bufResp
          text opts store =
        (some (Except.error (SendError.build BuildError.missingCompletionParams)), store))
    ∧ (∀ cp, opts.completionParams = some cp → firstParenInner text.data = none →
      buildMessages encodeLen getMsg cfg fuel text opts =
        Except.error BuildError.noParenMatch
      ∧ sendMessage encodeLen getMsg cfg fuel freshMessageId assistantId frames bufResp
          text opts store =
        (some (Except.error (SendError.build BuildError.noParenMatch)), store)) := by
  constructor
  · intro hcp
    have hb : buildMessages encodeLen getMsg cfg fuel text opts =
        Except.error BuildError.missingCompletionParams := by
      have hfront : buildFront cfg text opts = Except.error BuildError.missingCompletionParams := by
        simp [buildFront, hmarker, hcp]
      unfold buildMessages
      rw [hfront]
      rfl
    refine ⟨hb, ?_⟩
    unfold sendMessage
    rw [hb]
  · intro cp hcp hparen
    have hb : buildMessages encodeLen getMsg cfg fuel text opts =
        Except.error BuildError.noParenMatch := by
      have hfront : buildFront cfg text opts = Except.error BuildError.noParenMatch := by
        simp [buildFront, hmarker, hcp, hparen]
      unfold buildMessages
      rw [hfront]
      rfl
    refine ⟨hb, ?_⟩
    unfold sendMessage
    rw [hb]

/-- C10 witness: a concrete marker-bearing text without completion
params, and one with completion params but no parenthesized segment. -/
theorem c10_witness :
    (includesMarker "pic ![从感叹号开始为识图标志请勿修改](/sys/x.png)" = true
      ∧ includesMarker "pic ![从感叹号开始为识图标志请勿修改]/sys/x.png" = true
      ∧ firstParenInner "pic ![从感叹号开始为识图标志请勿修改]/sys/x.png".data = none)
    ∧ (buildMessages (fun s => s.length) (fun _ => none) ⟨100, 20, "S", ""⟩ 3
        "pic ![从感叹号开始为识图标志请勿修改](/sys/x.png)" {} =
        Except.error BuildError.missingCompletionParams
      ∧ sendMessage (fun s => s.length) (fun _ => none) ⟨100, 20, "S", ""⟩ 3 "m1" "a1" []
          (Except.ok resOkay) "pic ![从感叹号开始为识图标志请勿修改](/sys/x.png)" {} [] =
        (some (Except.error (SendError.build BuildError.missingCompletionParams)), []))
    ∧ (buildMessages (fun s => s.length) (fun _ => none) ⟨100, 20, "S", ""⟩ 3
        "pic ![从感叹号开始为识图标志请勿修改]/sys/x.png" { completionParams := some {} } =
        Except.error BuildError.noParenMatch
      ∧ sendMessage (fun s => s.length) (fun _ => none) ⟨100, 20, "S", ""⟩ 3 "m1" "a1" []
          (Except.ok resOkay) "pic ![从感叹号开始为识图标志请勿修改]/sys/x.png"
          { completionParams := some {} } [] =
        (some (Except.error (SendError.build BuildError.noParenMatch)), [])) :=
  ⟨⟨by decide, by decide, by decide⟩,
    (c10_image_marker_crash (fun s => s.length) (fun _ => none) ⟨100, 20, "S", ""⟩ 3 "m1" "a1"
      [] (Except.ok resOkay) "pic ![从感叹号开始为识图标志请勿修改](/sys/x.png)" {} []
      (by decide)).1 rfl,
    (c10_image_marker_crash (fun s => s.length) (fun _ => none) ⟨100, 20, "S", ""⟩ 3 "m1" "a1"
      [] (Except.ok resOkay) "pic ![从感叹号开始为识图标志请勿修改]/sys/x.png"
      { completionParams := some {} } [] (by decide)).2 {} rfl (by decide)⟩

end ChatGPTWeb
